import Mathlib

/-!
# Verification of `src/aws/script.js` (AWS study-guide single-page app)

Shallow embedding of the app logic: hash-based section navigation
(`showSection`, the hashchange handler), content loading
(`loadContent`, `populateGrids`), the image modal (`openModal`,
`closeModal`) and the card expand/collapse controller
(`toggleResource`).  The DOM is modelled as explicit state: each
element the script touches becomes a field, lookups that may fail
become `Option`, and the browser location/history becomes a record
with counters for `pushState`/`replaceState` calls.
-/

namespace AwsGuide

/-- `SECTION_IDS` from script.js line 11. -/
def SECTION_IDS : List String :=
  ["compute", "networking", "storage", "database",
   "serverless", "analytics", "security", "devops", "cost"]

/-- `DEFAULT_SECTION` from script.js line 15. -/
def DEFAULT_SECTION : String := "compute"

/-- The state of one section block `block-<id>`: its `is-visible` class
and its `hidden` attribute. -/
structure Block where
  isVisible : Bool
  hidden : Bool
deriving DecidableEq, Repr

/-- The DOM portions the navigation and content code reads and writes.
`blocks id` models `document.getElementById('block-' + id)` (`none` =
element missing); `navLinks id` models
`nav?.querySelector('.nav-link[data-section=id]')`, carrying the
`active` class when present; `grids s` models
`document.querySelector('.resource-grid[data-section=s]')` with its
`innerHTML`; `expandBtns` is the list of `aria-expanded` attribute
values of the `.expand-btn` elements. -/
structure Dom where
  blocks : String → Option Block
  navLinks : String → Option Bool
  grids : String → Option String
  expandBtns : List String
  mainExists : Bool
  mainScrollTop : Nat

/-- Browser location and history.  `hash` is `window.location.hash`
(either empty or starting with `#`).  `historyLen`, `pushCount` and
`replaceCount` record the history length and how many times
`pushState` / `replaceState` were called. -/
structure Browser where
  pathname : String
  hash : String
  historyLen : Nat
  pushCount : Nat
  replaceCount : Nat
deriving DecidableEq, Repr

/-- The value the module-level `contentData` variable holds: `null`
(initial), a non-object JSON value, or a JSON object mapping section
names to values. -/
inductive JVal where
  | arr (items : List String)
  | nonArray
deriving DecidableEq, Repr

inductive ContentData where
  | null
  | nonObject
  | object (entries : List (String × JVal))
deriving DecidableEq, Repr

/-- Whole-program state: DOM, browser, the `contentData` variable and
a counter of `console.error` calls. -/
structure State where
  dom : Dom
  browser : Browser
  contentData : ContentData
  consoleErrors : Nat

/-- One iteration of the `SECTION_IDS.forEach` loop in `showSection`
(script.js lines 58-67): if `block-id` exists, set its `is-visible`
class and `hidden` attribute from `id === sectionId`, and if the
matching nav link also exists, toggle its `active` class likewise. -/
def showSectionStep (sectionId : String) (d : Dom) (id : String) : Dom :=
  match d.blocks id, d.navLinks id with
  | none, _ => d
  | some _, none =>
    { d with blocks := fun x =>
        if x = id then some ⟨id == sectionId, !(id == sectionId)⟩ else d.blocks x }
  | some _, some _ =>
    { d with
      blocks := fun x =>
        if x = id then some ⟨id == sectionId, !(id == sectionId)⟩ else d.blocks x,
      navLinks := fun x =>
        if x = id then some (id == sectionId) else d.navLinks x }

/-- `showSection(sectionId, updateHash)` (script.js lines 57-75):
update every section block and nav link, then, when `updateHash` is
set and the current fragment differs from `#sectionId`, replace the
current history entry with `pathname#sectionId`; finally reset the
main container scroll position when `main` exists and `sectionId` is
truthy (non-empty). -/
def showSection (sectionId : String) (updateHash : Bool) (st : State) : State :=
  let d := SECTION_IDS.foldl (showSectionStep sectionId) st.dom
  { st with
    dom := if d.mainExists ∧ sectionId ≠ "" then { d with mainScrollTop := 0 } else d,
    browser :=
      if updateHash then
        if st.browser.hash ≠ "#" ++ sectionId then
          { st.browser with hash := "#" ++ sectionId,
                            replaceCount := st.browser.replaceCount + 1 }
        else st.browser
      else st.browser }

/-- A section block counts as visible when it exists, carries the
`is-visible` class and is not `hidden`. -/
def blockVisible (d : Dom) (id : String) : Bool :=
  match d.blocks id with
  | some b => b.isVisible && !b.hidden
  | none => false

/-- One iteration of the `Object.entries(contentData)` loop in
`populateGrids` (script.js lines 44-47): if the grid container for the
section exists and the value is an array, replace the grid's content
with `items.join('')`. -/
def populateStep (d : Dom) (p : String × JVal) : Dom :=
  match d.grids p.1, p.2 with
  | some _, .arr items =>
    { d with grids := fun x =>
        if x = p.1 then some (String.join items) else d.grids x }
  | _, _ => d

/-- The initial section computed at script.js lines 49-50:
`const hash = window.location.hash.slice(1) || DEFAULT_SECTION;`
then `SECTION_IDS.includes(hash) ? hash : DEFAULT_SECTION`. -/
def initialTarget (hash : String) : String :=
  let h := hash.drop 1
  let h := if h = "" then DEFAULT_SECTION else h
  if h ∈ SECTION_IDS then h else DEFAULT_SECTION

/-- `populateGrids()` (script.js lines 42-51): bail out when
`contentData` is falsy or not an object; otherwise fill each matching
grid, reset every expand button's `aria-expanded` to `"false"`, and
show the section named by the URL fragment (default on empty or
unrecognized), without updating the hash. -/
def populateGrids (st : State) : State :=
  match st.contentData with
  | .null => st
  | .nonObject => st
  | .object entries =>
    let d := entries.foldl populateStep st.dom
    let d := { d with expandBtns := d.expandBtns.map (fun _ => "false") }
    showSection (initialTarget st.browser.hash) false { st with dom := d }

/-- The outcome of `await fetch(...)` + `await res.json()` in
`loadContent` (script.js lines 33-35): a network failure, a
non-success status (`!res.ok`), a JSON parse failure, or a parsed
value. -/
inductive FetchResult where
  | networkError
  | httpError
  | parseError
  | success (data : ContentData)
deriving DecidableEq, Repr

/-- `loadContent()` (script.js lines 31-40): on success assign
`contentData` and call `populateGrids`; on any failure log with
`console.error` and leave everything else untouched. -/
def loadContent (r : FetchResult) (st : State) : State :=
  match r with
  | .success data => populateGrids { st with contentData := data }
  | _ => { st with consoleErrors := st.consoleErrors + 1 }

/-- The `hashchange` listener (script.js lines 92-95): read the new
fragment and call `showSection(hash, false)` only when it is a
recognized section identifier. -/
def hashchangeHandler (st : State) : State :=
  let hash := st.browser.hash.drop 1
  if hash ∈ SECTION_IDS then showSection hash false st else st

/-- The modal-related DOM: existence flags for `#image-modal`,
`#modal-img`, `#modal-caption` and the `.modal-close` control, the
mutable attributes the handlers touch, and `document.body.style.overflow`. -/
structure ModalState where
  modalExists : Bool
  modalHidden : Bool
  imgExists : Bool
  imgSrc : String
  imgAlt : String
  captionExists : Bool
  captionText : String
  closeExists : Bool
  closeFocused : Bool
  bodyOverflow : String
deriving DecidableEq, Repr

/-- `openModal(src, title)` (script.js lines 107-115).  Returns
`.error` with the state at the point of failure when the unguarded
`modalCaption.textContent` assignment (line 111) throws a `TypeError`
because `#modal-caption` is missing while `#image-modal` and
`#modal-img` are both present. -/
def openModal (src title : String) (m : ModalState) : Except ModalState ModalState :=
  if !m.modalExists || !m.imgExists then .ok m
  else
    let m1 := { m with imgSrc := src,
                       imgAlt := if title = "" then "Image" else title }
    if !m1.captionExists then .error m1
    else .ok { m1 with captionText := title,
                       modalHidden := false,
                       bodyOverflow := "hidden",
                       closeFocused := m1.closeExists }

/-- `closeModal()` (script.js lines 117-121). -/
def closeModal (m : ModalState) : ModalState :=
  if !m.modalExists then m
  else { m with modalHidden := true, bodyOverflow := "" }

/-- One expand/collapse card as `toggleResource` sees it: the button,
its previous sibling (the full-text element) and that element's
previous sibling (the short-text element), plus the enclosing
`.resource-card`.  Display values are the inline `style.display`
strings. -/
structure Card where
  fullExists : Bool
  fullDisplay : String
  shortExists : Bool
  shortDisplay : String
  btnText : String
  btnAria : String
  cardExists : Bool
  cardExpandedClass : Bool
deriving DecidableEq, Repr

/-- `toggleResource(btn)` (script.js lines 138-159): no-op when the
full-text sibling is missing; otherwise flip between the expanded and
collapsed presentation, reading the current state off the full-text
element's inline display. -/
def toggleResource (c : Card) : Card :=
  if !c.fullExists then c
  else if c.fullDisplay = "block" then
    { c with fullDisplay := "none",
             btnText := "Read More",
             shortDisplay := if c.shortExists then "block" else c.shortDisplay,
             cardExpandedClass := if c.cardExists then false else c.cardExpandedClass,
             btnAria := "false" }
  else
    { c with fullDisplay := "block",
             btnText := "Read Less",
             shortDisplay := if c.shortExists then "none" else c.shortDisplay,
             cardExpandedClass := if c.cardExists then true else c.cardExpandedClass,
             btnAria := "true" }

/-- The collapsed card state of §4.4 of the design: short text shown,
full text hidden, button reads "Read More", `aria-expanded="false"`,
and no `is-expanded` class on the card. -/
def Card.collapsed (c : Card) : Prop :=
  c.fullExists = true ∧ c.fullDisplay = "none" ∧ c.btnText = "Read More" ∧
  c.btnAria = "false" ∧ (c.shortExists = true → c.shortDisplay = "block") ∧
  (c.cardExists = true → c.cardExpandedClass = false)

instance (c : Card) : Decidable c.collapsed := by
  unfold Card.collapsed
  infer_instance

/-! ## Characterising the `showSection` loop -/

theorem showSectionStep_blocks_ne (s : String) (d : Dom) (id x : String)
    (h : x ≠ id) : (showSectionStep s d id).blocks x = d.blocks x := by
  unfold showSectionStep
  cases hb : d.blocks id <;> cases hl : d.navLinks id <;> simp [h]

theorem showSectionStep_navLinks_ne (s : String) (d : Dom) (id x : String)
    (h : x ≠ id) : (showSectionStep s d id).navLinks x = d.navLinks x := by
  unfold showSectionStep
  cases hb : d.blocks id <;> cases hl : d.navLinks id <;> simp [h]

theorem showSectionStep_blocks_self (s : String) (d : Dom) (id : String) :
    (showSectionStep s d id).blocks id =
      match d.blocks id with
      | none => none
      | some _ => some ⟨id == s, !(id == s)⟩ := by
  unfold showSectionStep
  cases hb : d.blocks id <;> cases hl : d.navLinks id <;> simp [hb, hl]

theorem showSectionStep_navLinks_self (s : String) (d : Dom) (id : String) :
    (showSectionStep s d id).navLinks id =
      if (d.blocks id).isSome && (d.navLinks id).isSome then some (id == s)
      else d.navLinks id := by
  unfold showSectionStep
  cases hb : d.blocks id <;> cases hl : d.navLinks id <;> simp [hb, hl]

theorem showSectionStep_grids (s : String) (d : Dom) (id : String) :
    (showSectionStep s d id).grids = d.grids := by
  unfold showSectionStep
  cases hb : d.blocks id <;> cases hl : d.navLinks id <;> simp

theorem showSectionStep_expandBtns (s : String) (d : Dom) (id : String) :
    (showSectionStep s d id).expandBtns = d.expandBtns := by
  unfold showSectionStep
  cases hb : d.blocks id <;> cases hl : d.navLinks id <;> simp

theorem showSectionStep_mainExists (s : String) (d : Dom) (id : String) :
    (showSectionStep s d id).mainExists = d.mainExists := by
  unfold showSectionStep
  cases hb : d.blocks id <;> cases hl : d.navLinks id <;> simp

theorem showSectionStep_mainScrollTop (s : String) (d : Dom) (id : String) :
    (showSectionStep s d id).mainScrollTop = d.mainScrollTop := by
  unfold showSectionStep
  cases hb : d.blocks id <;> cases hl : d.navLinks id <;> simp

theorem foldl_showSectionStep_blocks_notMem (s : String) (L : List String)
    (d : Dom) (x : String) (h : x ∉ L) :
    (L.foldl (showSectionStep s) d).blocks x = d.blocks x := by
  induction L generalizing d with
  | nil => rfl
  | cons a L ih =>
    simp only [List.mem_cons, not_or] at h
    simp only [List.foldl_cons]
    rw [ih _ h.2, showSectionStep_blocks_ne s d a x h.1]

theorem foldl_showSectionStep_navLinks_notMem (s : String) (L : List String)
    (d : Dom) (x : String) (h : x ∉ L) :
    (L.foldl (showSectionStep s) d).navLinks x = d.navLinks x := by
  induction L generalizing d with
  | nil => rfl
  | cons a L ih =>
    simp only [List.mem_cons, not_or] at h
    simp only [List.foldl_cons]
    rw [ih _ h.2, showSectionStep_navLinks_ne s d a x h.1]

theorem foldl_showSectionStep_blocks_mem (s : String) (L : List String)
    (d : Dom) (x : String) (hnd : L.Nodup) (h : x ∈ L) :
    (L.foldl (showSectionStep s) d).blocks x =
      match d.blocks x with
      | none => none
      | some _ => some ⟨x == s, !(x == s)⟩ := by
  induction L generalizing d with
  | nil => cases h
  | cons a L ih =>
    simp only [List.nodup_cons] at hnd
    simp only [List.foldl_cons]
    rcases List.mem_cons.mp h with rfl | hx
    · rw [foldl_showSectionStep_blocks_notMem s L _ x hnd.1,
        showSectionStep_blocks_self]
    · have hxa : x ≠ a := fun he => hnd.1 (he ▸ hx)
      rw [ih _ hnd.2 hx, showSectionStep_blocks_ne s d a x hxa]

theorem foldl_showSectionStep_navLinks_mem (s : String) (L : List String)
    (d : Dom) (x : String) (hnd : L.Nodup) (h : x ∈ L) :
    (L.foldl (showSectionStep s) d).navLinks x =
      if (d.blocks x).isSome && (d.navLinks x).isSome then some (x == s)
      else d.navLinks x := by
  induction L generalizing d with
  | nil => cases h
  | cons a L ih =>
    simp only [List.nodup_cons] at hnd
    simp only [List.foldl_cons]
    rcases List.mem_cons.mp h with rfl | hx
    · rw [foldl_showSectionStep_navLinks_notMem s L _ x hnd.1,
        showSectionStep_navLinks_self]
    · have hxa : x ≠ a := fun he => hnd.1 (he ▸ hx)
      rw [ih _ hnd.2 hx, showSectionStep_blocks_ne s d a x hxa,
        showSectionStep_navLinks_ne s d a x hxa]

theorem foldl_showSectionStep_grids (s : String) (L : List String) (d : Dom) :
    (L.foldl (showSectionStep s) d).grids = d.grids := by
  induction L generalizing d with
  | nil => rfl
  | cons a L ih => rw [List.foldl_cons, ih, showSectionStep_grids]

theorem foldl_showSectionStep_expandBtns (s : String) (L : List String) (d : Dom) :
    (L.foldl (showSectionStep s) d).expandBtns = d.expandBtns := by
  induction L generalizing d with
  | nil => rfl
  | cons a L ih => rw [List.foldl_cons, ih, showSectionStep_expandBtns]

theorem foldl_showSectionStep_mainExists (s : String) (L : List String) (d : Dom) :
    (L.foldl (showSectionStep s) d).mainExists = d.mainExists := by
  induction L generalizing d with
  | nil => rfl
  | cons a L ih => rw [List.foldl_cons, ih, showSectionStep_mainExists]

theorem SECTION_IDS_nodup : SECTION_IDS.Nodup := by decide

theorem showSection_dom_blocks_eq (s : String) (b : Bool) (st : State) :
    (showSection s b st).dom.blocks =
      (SECTION_IDS.foldl (showSectionStep s) st.dom).blocks := by
  simp only [showSection]
  split <;> rfl

theorem showSection_dom_navLinks_eq (s : String) (b : Bool) (st : State) :
    (showSection s b st).dom.navLinks =
      (SECTION_IDS.foldl (showSectionStep s) st.dom).navLinks := by
  simp only [showSection]
  split <;> rfl

theorem showSection_dom_grids_eq (s : String) (b : Bool) (st : State) :
    (showSection s b st).dom.grids = st.dom.grids := by
  simp only [showSection]
  split <;> simp [foldl_showSectionStep_grids]

theorem showSection_dom_expandBtns_eq (s : String) (b : Bool) (st : State) :
    (showSection s b st).dom.expandBtns = st.dom.expandBtns := by
  simp only [showSection]
  split <;> simp [foldl_showSectionStep_expandBtns]

theorem showSection_browser_eq (s : String) (b : Bool) (st : State) :
    (showSection s b st).browser =
      if b then
        if st.browser.hash ≠ "#" ++ s then
          { st.browser with hash := "#" ++ s,
                            replaceCount := st.browser.replaceCount + 1 }
        else st.browser
      else st.browser := rfl

theorem showSection_contentData_eq (s : String) (b : Bool) (st : State) :
    (showSection s b st).contentData = st.contentData := rfl

theorem showSection_consoleErrors_eq (s : String) (b : Bool) (st : State) :
    (showSection s b st).consoleErrors = st.consoleErrors := rfl

/-- What `showSection` does to every section block. -/
theorem showSection_blocks (s : String) (b : Bool) (st : State) (x : String) :
    (showSection s b st).dom.blocks x =
      if x ∈ SECTION_IDS then
        match st.dom.blocks x with
        | none => none
        | some _ => some ⟨x == s, !(x == s)⟩
      else st.dom.blocks x := by
  rw [showSection_dom_blocks_eq]
  by_cases hm : x ∈ SECTION_IDS
  · rw [if_pos hm,
      foldl_showSectionStep_blocks_mem s SECTION_IDS st.dom x SECTION_IDS_nodup hm]
  · rw [if_neg hm, foldl_showSectionStep_blocks_notMem s SECTION_IDS st.dom x hm]

/-- What `showSection` does to every nav link. -/
theorem showSection_navLinks (s : String) (b : Bool) (st : State) (x : String) :
    (showSection s b st).dom.navLinks x =
      if x ∈ SECTION_IDS ∧ (st.dom.blocks x).isSome ∧ (st.dom.navLinks x).isSome
      then some (x == s) else st.dom.navLinks x := by
  rw [showSection_dom_navLinks_eq]
  by_cases hm : x ∈ SECTION_IDS
  · rw [foldl_showSectionStep_navLinks_mem s SECTION_IDS st.dom x
      SECTION_IDS_nodup hm]
    by_cases hb : (st.dom.blocks x).isSome = true <;>
      by_cases hl : (st.dom.navLinks x).isSome = true <;>
      simp [hb, hl, hm]
  · rw [foldl_showSectionStep_navLinks_notMem s SECTION_IDS st.dom x hm]
    simp [hm]

/-! ## Characterising the `populateGrids` loop -/

theorem populateStep_grids_ne (d : Dom) (p : String × JVal) (x : String)
    (h : x ≠ p.1) : (populateStep d p).grids x = d.grids x := by
  unfold populateStep
  cases hg : d.grids p.1 <;> cases p.2 <;> simp [h]

theorem populateStep_grids_self (d : Dom) (p : String × JVal) :
    (populateStep d p).grids p.1 =
      match d.grids p.1, p.2 with
      | some _, .arr items => some (String.join items)
      | _, _ => d.grids p.1 := by
  unfold populateStep
  cases hg : d.grids p.1 <;> cases p.2 <;> simp [hg]

theorem populateStep_blocks (d : Dom) (p : String × JVal) :
    (populateStep d p).blocks = d.blocks := by
  unfold populateStep
  cases hg : d.grids p.1 <;> cases p.2 <;> simp

theorem populateStep_navLinks (d : Dom) (p : String × JVal) :
    (populateStep d p).navLinks = d.navLinks := by
  unfold populateStep
  cases hg : d.grids p.1 <;> cases p.2 <;> simp

theorem populateStep_expandBtns (d : Dom) (p : String × JVal) :
    (populateStep d p).expandBtns = d.expandBtns := by
  unfold populateStep
  cases hg : d.grids p.1 <;> cases p.2 <;> simp

theorem populateStep_mainExists (d : Dom) (p : String × JVal) :
    (populateStep d p).mainExists = d.mainExists := by
  unfold populateStep
  cases hg : d.grids p.1 <;> cases p.2 <;> simp

theorem foldl_populateStep_blocks (entries : List (String × JVal)) (d : Dom) :
    (entries.foldl populateStep d).blocks = d.blocks := by
  induction entries generalizing d with
  | nil => rfl
  | cons p entries ih => rw [List.foldl_cons, ih, populateStep_blocks]

theorem foldl_populateStep_navLinks (entries : List (String × JVal)) (d : Dom) :
    (entries.foldl populateStep d).navLinks = d.navLinks := by
  induction entries generalizing d with
  | nil => rfl
  | cons p entries ih => rw [List.foldl_cons, ih, populateStep_navLinks]

theorem foldl_populateStep_mainExists (entries : List (String × JVal)) (d : Dom) :
    (entries.foldl populateStep d).mainExists = d.mainExists := by
  induction entries generalizing d with
  | nil => rfl
  | cons p entries ih => rw [List.foldl_cons, ih, populateStep_mainExists]

theorem foldl_populateStep_grids_notMem (entries : List (String × JVal))
    (d : Dom) (x : String) (h : x ∉ entries.map Prod.fst) :
    (entries.foldl populateStep d).grids x = d.grids x := by
  induction entries generalizing d with
  | nil => rfl
  | cons p entries ih =>
    simp only [List.map_cons, List.mem_cons, not_or] at h
    rw [List.foldl_cons, ih _ h.2, populateStep_grids_ne d p x h.1]

theorem foldl_populateStep_grids_mem (entries : List (String × JVal))
    (d : Dom) (s : String) (items : List String)
    (hnd : (entries.map Prod.fst).Nodup) (h : (s, JVal.arr items) ∈ entries) :
    (entries.foldl populateStep d).grids s =
      match d.grids s with
      | none => none
      | some _ => some (String.join items) := by
  induction entries generalizing d with
  | nil => cases h
  | cons p entries ih =>
    simp only [List.map_cons, List.nodup_cons] at hnd
    rw [List.foldl_cons]
    rcases List.mem_cons.mp h with rfl | hx
    · rw [foldl_populateStep_grids_notMem entries _ s hnd.1]
      have := populateStep_grids_self d (s, JVal.arr items)
      cases hg : d.grids s <;> simp_all
    · have hxp : s ≠ p.1 := by
        intro he
        exact hnd.1 (he ▸ List.mem_map_of_mem Prod.fst hx)
      rw [ih _ hnd.2 hx, populateStep_grids_ne d p s hxp]

theorem populateGrids_object_grids (st : State)
    (entries : List (String × JVal)) (hc : st.contentData = .object entries)
    (x : String) :
    (populateGrids st).dom.grids x = (entries.foldl populateStep st.dom).grids x := by
  unfold populateGrids
  rw [hc]
  rw [showSection_dom_grids_eq]

/-- Visibility of a section block after any `showSection` call: the
block carries the `is-visible` class and is shown exactly when its
identifier equals the requested one. -/
theorem blockVisible_showSection (t : String) (b : Bool) (st : State)
    (id : String) (hid : id ∈ SECTION_IDS)
    (hb : (st.dom.blocks id).isSome = true) :
    blockVisible (showSection t b st).dom id = (id == t) := by
  have hk := showSection_blocks t b st id
  rw [if_pos hid] at hk
  cases h : st.dom.blocks id with
  | none => rw [h] at hb; cases hb
  | some blk =>
    rw [h] at hk
    simp [blockVisible, hk]

theorem initialTarget_mem (hash : String) (h : hash.drop 1 ∈ SECTION_IDS) :
    initialTarget hash = hash.drop 1 := by
  have hne : hash.drop 1 ≠ "" := by
    intro he
    rw [he] at h
    exact absurd h (by decide)
  simp [initialTarget, hne, h]

theorem initialTarget_notMem (hash : String) (h : hash.drop 1 ∉ SECTION_IDS) :
    initialTarget hash = DEFAULT_SECTION := by
  by_cases he : hash.drop 1 = "" <;> simp [initialTarget, he, h]

/-! ## Sample states used as witnesses -/

/-- A page state with every section block, nav link and two grids
present, section "compute" initially visible nowhere, hash empty. -/
def exDom : Dom where
  blocks := fun x => if x ∈ SECTION_IDS then some ⟨false, true⟩ else none
  navLinks := fun x => if x ∈ SECTION_IDS then some false else none
  grids := fun x =>
    if x = "compute" then some "" else if x = "storage" then some "old" else none
  expandBtns := ["true", "false"]
  mainExists := true
  mainScrollTop := 5

def exBrowser : Browser where
  pathname := "/index.html"
  hash := ""
  historyLen := 1
  pushCount := 0
  replaceCount := 0

def exState : State where
  dom := exDom
  browser := exBrowser
  contentData := ContentData.null
  consoleErrors := 0

/-! ## Claims -/

/-- Claim C1: for every section identifier `s` in the fixed set, when
every `block-<id>` exists, `showSection s b` leaves exactly one
section block visible, namely the one whose identifier equals `s`; all
other section blocks are hidden. -/
theorem C1_showSection_unique_visible (s : String) (_hs : s ∈ SECTION_IDS)
    (b : Bool) (st : State)
    (hall : ∀ id ∈ SECTION_IDS, (st.dom.blocks id).isSome = true) :
    (∀ id ∈ SECTION_IDS,
        (showSection s b st).dom.blocks id = some ⟨id == s, !(id == s)⟩) ∧
    (∀ id ∈ SECTION_IDS,
        (blockVisible (showSection s b st).dom id = true ↔ id = s)) := by
  have key : ∀ id ∈ SECTION_IDS,
      (showSection s b st).dom.blocks id = some ⟨id == s, !(id == s)⟩ := by
    intro id hid
    have hk := showSection_blocks s b st id
    rw [if_pos hid] at hk
    cases h : st.dom.blocks id with
    | none =>
      have := hall id hid
      rw [h] at this
      cases this
    | some blk =>
      rw [h] at hk
      exact hk
  refine ⟨key, fun id hid => ?_⟩
  have hk := key id hid
  simp [blockVisible, hk]

/-- Concrete instantiation of claim C1 at `s = "storage"`. -/
theorem C1_witness :
    (showSection "storage" true exState).dom.blocks "storage" =
      some ⟨"storage" == "storage", !("storage" == "storage")⟩ :=
  (C1_showSection_unique_visible "storage" (by decide) true exState
    (by decide)).1 "storage" (by decide)

/-- Claim C4: a hash-change event whose new fragment is not a
recognized section identifier changes nothing at all: the handler
returns the state unchanged (so `showSection` is not called, the
visible section and all nav-link indicators stay as they were, and
there is no fallback to the default section). -/
theorem C4_hashchange_unrecognized_noop (st : State)
    (h : st.browser.hash.drop 1 ∉ SECTION_IDS) :
    hashchangeHandler st = st := by
  simp [hashchangeHandler, h]

def c4State : State :=
  { exState with browser := { exBrowser with hash := "#bogus" } }

/-- Concrete instantiation of claim C4 at fragment `#bogus`. -/
theorem C4_witness : hashchangeHandler c4State = c4State :=
  C4_hashchange_unrecognized_noop c4State (by decide)

/-- Claim C5: every failed fetch (network error, non-success status,
parse error) is caught and logged, leaving the whole state otherwise
untouched — in particular no grid content changes and `populateGrids`
is not reached; and `populateGrids` itself is a no-op whenever
`contentData` is null or not an object. -/
theorem C5_load_failure_swallowed :
    (∀ (st : State) (r : FetchResult), (∀ d, r ≠ FetchResult.success d) →
        loadContent r st = { st with consoleErrors := st.consoleErrors + 1 }) ∧
    (∀ st : State,
        st.contentData = ContentData.null ∨
          st.contentData = ContentData.nonObject →
        populateGrids st = st) := by
  constructor
  · intro st r h
    cases r with
    | networkError => rfl
    | httpError => rfl
    | parseError => rfl
    | success d => exact absurd rfl (h d)
  · intro st h
    unfold populateGrids
    rcases h with h | h <;> rw [h]

/-- Concrete instantiation of claim C5 at a network error. -/
theorem C5_witness :
    loadContent FetchResult.networkError exState =
      { exState with consoleErrors := exState.consoleErrors + 1 } :=
  C5_load_failure_swallowed.1 exState FetchResult.networkError
    (fun _ h => FetchResult.noConfusion h)

/-- Claim C6: `showSection` is idempotent on the DOM visibility state:
for a recognized identifier, a second identical call leaves every
section block's visibility flags and every nav link's active
indicator exactly as after the first call. -/
theorem C6_showSection_idempotent (s : String) (_hs : s ∈ SECTION_IDS)
    (b : Bool) (st : State) :
    (showSection s b (showSection s b st)).dom.blocks =
      (showSection s b st).dom.blocks ∧
    (showSection s b (showSection s b st)).dom.navLinks =
      (showSection s b st).dom.navLinks := by
  constructor
  · funext x
    rw [showSection_blocks s b (showSection s b st) x,
      showSection_blocks s b st x]
    by_cases hm : x ∈ SECTION_IDS <;>
      cases hbl : st.dom.blocks x <;>
      simp [hm, hbl]
  · funext x
    rw [showSection_navLinks s b (showSection s b st) x,
      showSection_navLinks s b st x, showSection_blocks s b st x]
    by_cases hm : x ∈ SECTION_IDS <;>
      cases hbl : st.dom.blocks x <;>
      cases hnl : st.dom.navLinks x <;>
      simp [hm, hbl, hnl]

/-- Concrete instantiation of claim C6 at `s = "compute"`. -/
theorem C6_witness :
    (showSection "compute" false (showSection "compute" false exState)).dom.blocks =
      (showSection "compute" false exState).dom.blocks :=
  (C6_showSection_idempotent "compute" (by decide) false exState).1

/-- Claim C9: with `updateHash = true` the browser history is changed
only through `replaceState` (never a push, never a length change), and
only when the current fragment differs from `#id`; when the fragment
already matches, or when `updateHash = false`, location and history
are left entirely unchanged. -/
theorem C9_history_replace_only (s : String) (st : State) :
    (showSection s true st).browser.pushCount = st.browser.pushCount ∧
    (showSection s true st).browser.historyLen = st.browser.historyLen ∧
    (st.browser.hash ≠ "#" ++ s →
      (showSection s true st).browser =
        { st.browser with hash := "#" ++ s,
                          replaceCount := st.browser.replaceCount + 1 }) ∧
    (st.browser.hash = "#" ++ s → (showSection s true st).browser = st.browser) ∧
    (showSection s false st).browser = st.browser := by
  rw [showSection_browser_eq, showSection_browser_eq]
  by_cases h : st.browser.hash = "#" ++ s <;> simp [h]

/-- Concrete instantiation of claim C9: replacing the entry when the
fragment differs. -/
theorem C9_witness :
    (showSection "storage" true exState).browser =
      { exState.browser with hash := "#" ++ "storage",
                             replaceCount := exState.browser.replaceCount + 1 } :=
  (C9_history_replace_only "storage" exState).2.2.1 (by decide)

/-- Claim C2: for every `(section, fragment-list)` pair of the loaded
Content Map whose grid exists and whose value is an array,
`populateGrids` replaces the grid content with the in-order
concatenation of the fragments; a section whose grid is missing, or a
section absent from the map, is skipped and its grid left
unmodified.  The key-distinctness hypothesis reflects that a JS object
cannot have duplicate keys. -/
theorem C2_populateGrids_fills_grids (st : State)
    (entries : List (String × JVal))
    (hc : st.contentData = ContentData.object entries)
    (hnd : (entries.map Prod.fst).Nodup) :
    (∀ s items, (s, JVal.arr items) ∈ entries →
        (populateGrids st).dom.grids s =
          match st.dom.grids s with
          | none => none
          | some _ => some (String.join items)) ∧
    (∀ s, s ∉ entries.map Prod.fst →
        (populateGrids st).dom.grids s = st.dom.grids s) := by
  constructor
  · intro s items hmem
    rw [populateGrids_object_grids st entries hc s,
      foldl_populateStep_grids_mem entries st.dom s items hnd hmem]
  · intro s hs
    rw [populateGrids_object_grids st entries hc s,
      foldl_populateStep_grids_notMem entries st.dom s hs]

def c2Entries : List (String × JVal) :=
  [("compute", .arr ["<div>A</div>"]), ("storage", .arr ["<div>B</div>"])]

def c2State : State := { exState with contentData := ContentData.object c2Entries }

/-- Concrete instantiation of claim C2 at the spec's example content
JSON. -/
theorem C2_witness :
    (populateGrids c2State).dom.grids "compute" =
      match c2State.dom.grids "compute" with
      | none => none
      | some _ => some (String.join ["<div>A</div>"]) :=
  (C2_populateGrids_fills_grids c2State c2Entries rfl (by decide)).1
    "compute" ["<div>A</div>"] (by decide)

/-- Claim C3: at the end of `populateGrids` the visible section is
determined from the URL fragment — the fragment itself when it is a
recognized identifier, the default `"compute"` when it is empty or
unrecognized — and the browser location/history is not mutated
(`showSection` runs with `updateHash = false`). -/
theorem populateGrids_object (st : State) (entries : List (String × JVal))
    (hc : st.contentData = ContentData.object entries) :
    populateGrids st =
      showSection (initialTarget st.browser.hash) false
        { st with
          dom := { entries.foldl populateStep st.dom with
                   expandBtns := ((entries.foldl populateStep st.dom).expandBtns).map
                     (fun _ => "false") },
          contentData := ContentData.object entries } := by
  unfold populateGrids
  rw [hc]

theorem show_after_populate (t : String) (st st2 : State)
    (hblocks : st2.dom.blocks = st.dom.blocks)
    (hbrowser : st2.browser = st.browser)
    (hall : ∀ id ∈ SECTION_IDS, (st.dom.blocks id).isSome = true) :
    (showSection t false st2).browser = st.browser ∧
    ∀ id ∈ SECTION_IDS,
      blockVisible (showSection t false st2).dom id = (id == t) := by
  constructor
  · rw [showSection_browser_eq]
    simp [hbrowser]
  · intro id hid
    refine blockVisible_showSection t false st2 id hid ?_
    rw [congrFun hblocks id]
    exact hall id hid

theorem C3_populate_shows_fragment_section (st : State)
    (entries : List (String × JVal))
    (hc : st.contentData = ContentData.object entries)
    (hall : ∀ id ∈ SECTION_IDS, (st.dom.blocks id).isSome = true) :
    (populateGrids st).browser = st.browser ∧
    (st.browser.hash.drop 1 ∈ SECTION_IDS →
      ∀ id ∈ SECTION_IDS,
        blockVisible (populateGrids st).dom id = (id == st.browser.hash.drop 1)) ∧
    (st.browser.hash.drop 1 ∉ SECTION_IDS →
      ∀ id ∈ SECTION_IDS,
        blockVisible (populateGrids st).dom id = (id == DEFAULT_SECTION)) := by
  rw [populateGrids_object st entries hc]
  obtain ⟨hb, hv⟩ := show_after_populate (initialTarget st.browser.hash) st
    { st with
      dom := { entries.foldl populateStep st.dom with
               expandBtns := ((entries.foldl populateStep st.dom).expandBtns).map
                 (fun _ => "false") },
      contentData := ContentData.object entries }
    (foldl_populateStep_blocks entries st.dom) rfl hall
  refine ⟨hb, ?_, ?_⟩
  · intro hmem
    rw [initialTarget_mem st.browser.hash hmem] at hv ⊢
    exact hv
  · intro hmem
    rw [initialTarget_notMem st.browser.hash hmem] at hv ⊢
    exact hv

def c3State : State :=
  { exState with
    browser := { exBrowser with hash := "#storage" },
    contentData := ContentData.object c2Entries }

/-- Concrete instantiation of claim C3: loading with fragment
`#storage` shows the storage section. -/
theorem C3_witness :
    blockVisible (populateGrids c3State).dom "storage" =
      ("storage" == c3State.browser.hash.drop 1) :=
  (C3_populate_shows_fragment_section c3State c2Entries rfl (by decide)).2.1
    (by decide) "storage" (by decide)

/-- Claim C7: one toggle of a collapsed card shows the full text,
changes the button to "Read Less" and `aria-expanded="true"`, and a
second toggle restores the original card state exactly. -/
theorem C7_toggle_round_trip (c : Card) (h : c.collapsed) :
    (toggleResource c).fullDisplay = "block" ∧
    (toggleResource c).btnText = "Read Less" ∧
    (toggleResource c).btnAria = "true" ∧
    (c.shortExists = true → (toggleResource c).shortDisplay = "none") ∧
    toggleResource (toggleResource c) = c := by
  obtain ⟨hf, hd, ht, ha, hs, hx⟩ := h
  cases c with
  | mk fullExists fullDisplay shortExists shortDisplay btnText btnAria
      cardExists cardExpandedClass =>
    simp only at hf hd ht ha hs hx
    subst hf hd ht ha
    cases shortExists <;> cases cardExists <;>
      simp_all [toggleResource]

def c7Card : Card where
  fullExists := true
  fullDisplay := "none"
  shortExists := true
  shortDisplay := "block"
  btnText := "Read More"
  btnAria := "false"
  cardExists := true
  cardExpandedClass := false

/-- Concrete instantiation of claim C7: the double toggle is the
identity on a fully materialised collapsed card. -/
theorem C7_witness : toggleResource (toggleResource c7Card) = c7Card :=
  (C7_toggle_round_trip c7Card (by decide)).2.2.2.2

/-- Result classifier for the modal opener: `true` when the handler
ran to completion (possibly as an early-return no-op), `false` when it
threw. -/
def modalCallOk (r : Except ModalState ModalState) : Bool :=
  match r with
  | .ok _ => true
  | .error _ => false

def c8Modal : ModalState where
  modalExists := true
  modalHidden := true
  imgExists := true
  imgSrc := ""
  imgAlt := ""
  captionExists := false
  captionText := ""
  closeExists := true
  closeFocused := false
  bodyOverflow := ""

/-- Counterexample to claim C8: with `#image-modal` and `#modal-img`
present but `#modal-caption` missing, `openModal` reaches the
unguarded `modalCaption.textContent` assignment (script.js line 111)
and throws, so it is not the case that every combination of
present/absent modal elements leads to completion or a no-op. -/
theorem C8_counterexample :
    modalCallOk (openModal "pic.png" "Title" c8Modal) = false := by decide

/-- Claim C8 as amended: `openModal` never throws provided the caption
element is present whenever both the modal and the modal image are
present (it returns early as a no-op when either of those is
missing); `closeModal` with a missing modal and `toggleResource` with
a missing full-text sibling are no-ops. -/
theorem C8_guarded_handlers_amended (src title : String) (m : ModalState)
    (h : m.modalExists = true → m.imgExists = true → m.captionExists = true) :
    modalCallOk (openModal src title m) = true ∧
    (m.modalExists = false ∨ m.imgExists = false → openModal src title m = .ok m) ∧
    (m.modalExists = false → closeModal m = m) ∧
    (∀ c : Card, c.fullExists = false → toggleResource c = c) := by
  refine ⟨?_, ?_, ?_, ?_⟩
  · cases hm : m.modalExists <;> cases hi : m.imgExists <;>
      simp_all [openModal, modalCallOk]
  · intro hmi
    rcases hmi with hm | hm <;> simp [openModal, hm]
  · intro hm
    simp [closeModal, hm]
  · intro c hc
    simp [toggleResource, hc]

def c8Modal2 : ModalState :=
  { c8Modal with captionExists := true }

/-- Concrete instantiation of the amended claim C8: with every element
present the handler completes. -/
theorem C8_witness :
    modalCallOk (openModal "pic.png" "Title" c8Modal2) = true :=
  (C8_guarded_handlers_amended "pic.png" "Title" c8Modal2
    (fun _ _ => rfl)).1

def c10State : State :=
  { exState with
    dom := { exDom with
             blocks := fun _ => none,
             navLinks := fun x => if x = "compute" then some true else none } }

/-- Counterexample to claim C10: the `active` class is toggled only
inside the `if (block)` guard (script.js lines 61-65), so when
`block-compute` is missing but its nav link exists and is active,
`showSection "bogus"` leaves that nav link active instead of removing
the indicator from every nav link. -/
theorem C10_counterexample :
    (showSection "bogus" true c10State).dom.navLinks "compute" = some true ∧
    some true ≠ (some false : Option Bool) := by
  constructor
  · rw [showSection_navLinks]
    decide
  · decide

/-- Claim C10 as amended: for every identifier outside the fixed set,
`showSection` hides every existing section block and removes the
active indicator from every nav link whose section block exists, so no
section is visible afterwards. -/
theorem C10_unrecognized_hides_all_amended (id : String)
    (h : id ∉ SECTION_IDS) (b : Bool) (st : State) :
    (∀ x ∈ SECTION_IDS, blockVisible (showSection id b st).dom x = false) ∧
    (∀ x ∈ SECTION_IDS, (st.dom.blocks x).isSome = true →
        (showSection id b st).dom.blocks x = some ⟨false, true⟩) ∧
    (∀ x ∈ SECTION_IDS, (st.dom.blocks x).isSome = true →
        (st.dom.navLinks x).isSome = true →
        (showSection id b st).dom.navLinks x = some false) := by
  have hne : ∀ x ∈ SECTION_IDS, (x == id) = false := by
    intro x hx
    refine beq_eq_false_iff_ne.mpr ?_
    intro he
    exact h (he ▸ hx)
  refine ⟨?_, ?_, ?_⟩
  · intro x hx
    have hk := showSection_blocks id b st x
    rw [if_pos hx] at hk
    cases hbl : st.dom.blocks x with
    | none =>
      rw [hbl] at hk
      simp [blockVisible, hk]
    | some blk =>
      rw [hbl] at hk
      simp [blockVisible, hk, hne x hx]
  · intro x hx hsome
    have hk := showSection_blocks id b st x
    rw [if_pos hx] at hk
    cases hbl : st.dom.blocks x with
    | none => rw [hbl] at hsome; cases hsome
    | some blk =>
      rw [hbl] at hk
      rw [hk, hne x hx]
      rfl
  · intro x hx hsome hnav
    rw [showSection_navLinks, if_pos ⟨hx, hsome, hnav⟩, hne x hx]

/-- Concrete instantiation of the amended claim C10 at `id = "bogus"`. -/
theorem C10_witness :
    blockVisible (showSection "bogus" true exState).dom "compute" = false :=
  (C10_unrecognized_hides_all_amended "bogus" (by decide) true exState).1
    "compute" (by decide)

end AwsGuide
